import Mathlib

/-!
Verification development for the sky-webapp drone streaming subsystem
(src/drone-app).  Each Python function relevant to the spec is embedded as
an executable Lean definition; real-valued scores and box coordinates are
modelled by rationals, machine state by explicit records, and the
event-driven handlers by pure state-transition functions.
-/

namespace VideoStream

/-- A bounding box in YOLO center format (cx, cy, w, h), exactly the 4-tuple
used by video_stream.py detect_objects and compute_iou. -/
structure YoloBox where
  cx : ℚ
  cy : ℚ
  w : ℚ
  h : ℚ
deriving DecidableEq, Repr

/-- compute_iou from video_stream.py (lines 303-332): converts both center
boxes to corner form, intersects, returns 0 when the boxes are disjoint or
the union is not positive, otherwise intersection over union. -/
def compute_iou (box1 box2 : YoloBox) : ℚ :=
  let b1x1 := box1.cx - box1.w / 2
  let b1y1 := box1.cy - box1.h / 2
  let b1x2 := box1.cx + box1.w / 2
  let b1y2 := box1.cy + box1.h / 2
  let b2x1 := box2.cx - box2.w / 2
  let b2y1 := box2.cy - box2.h / 2
  let b2x2 := box2.cx + box2.w / 2
  let b2y2 := box2.cy + box2.h / 2
  let ix1 := max b1x1 b2x1
  let iy1 := max b1y1 b2y1
  let ix2 := min b1x2 b2x2
  let iy2 := min b1y2 b2y2
  if ix2 < ix1 ∨ iy2 < iy1 then 0
  else
    let interArea := (ix2 - ix1) * (iy2 - iy1)
    let b1Area := box1.w * box1.h
    let b2Area := box2.w * box2.h
    let unionArea := b1Area + b2Area - interArea
    if 0 < unionArea then interArea / unionArea else 0

/-- One detection record as built in detect_objects: a YOLO box, the class
index (0 = earth_person, 1 = sea_person; the source key is the Python
keyword class, rendered here as cls) and the confidence score. -/
structure Detection where
  box : YoloBox
  cls : Nat
  confidence : ℚ
deriving DecidableEq, Repr

/-- The sort step of non_max_suppression: Python sorted with
key confidence and reverse true, a stable descending sort, modelled by
insertion sort under the relation "left confidence is at least right". -/
def sortByConfDesc (dets : List Detection) : List Detection :=
  dets.insertionSort (fun a b => b.confidence ≤ a.confidence)

/-- The greedy loop of non_max_suppression (lines 290-299): keep the head of
the sorted list, drop every remaining detection whose IoU with it is not
below the threshold (the source keeps det only when compute_iou < threshold),
and recurse on the survivors. -/
def nmsLoop (iouThreshold : ℚ) : List Detection → List Detection
  | [] => []
  | d :: rest =>
      d :: nmsLoop iouThreshold
        (rest.filter (fun det => compute_iou d.box det.box < iouThreshold))
termination_by l => l.length
decreasing_by
  simp only [List.length_cons]
  exact Nat.lt_succ_of_le (List.length_filter_le _ _)

/-- non_max_suppression from video_stream.py (lines 281-301): stable sort by
confidence descending, then the greedy keep/drop loop.  The source early
return on the empty list coincides with the loop on the empty list. -/
def non_max_suppression (dets : List Detection) (iouThreshold : ℚ) : List Detection :=
  nmsLoop iouThreshold (sortByConfDesc dets)

/-- conf_threshold = 0.5 in detect_objects (line 190). -/
def streamConfThreshold : ℚ := 1/2

/-- Per-candidate class assignment in detect_objects (lines 193-205): the
earth_person score is tested first, and only when it fails its threshold is
the sea_person score examined at all. -/
def streamClassify (scoreEarth scoreSea : ℚ) : Option Nat :=
  if streamConfThreshold < scoreEarth then some 0
  else if streamConfThreshold < scoreSea then some 1
  else none

/-- max_size = 3 default of FrameBuffer (line 26). -/
def FRAME_BUFFER_MAX_SIZE : Nat := 3

/-- FrameBuffer.add_frame (lines 31-35): append the new frame, then if the
buffer exceeds max_size remove the element at index 0 (the oldest). -/
def add_frame (buffer : List Nat) (frame : Nat) : List Nat :=
  let b := buffer ++ [frame]
  if FRAME_BUFFER_MAX_SIZE < b.length then b.drop 1 else b

/-- FrameBuffer.get_latest_frame (lines 37-41): none on an empty buffer,
otherwise the element at index -1 (the most recently added), which is not
removed. -/
def get_latest_frame (buffer : List Nat) : Option Nat :=
  buffer.getLast?

/-- The buffer obtained by adding a sequence of frames to a fresh
FrameBuffer (whose list starts empty). -/
def fillFrameBuffer (frames : List Nat) : List Nat :=
  frames.foldl add_frame []

end VideoStream

namespace DetectionUtils

/-- CONFIDENCE_THRESHOLD = 0.5 in detection_utils.py (line 30). -/
def CONFIDENCE_THRESHOLD : ℚ := 1/2

/-- Per-candidate class assignment in detect_objects_from_camera
(detection_utils.py lines 138-163): class_id = argmax over the two class
scores (numpy argmax returns the first index on ties, so earth wins ties),
confidence = the score of that class, kept when confidence is at least the
global threshold. -/
def snapshotClassify (scoreEarth scoreSea : ℚ) : Option Nat :=
  let class_id : Nat := if scoreEarth < scoreSea then 1 else 0
  let confidence := if class_id = 1 then scoreSea else scoreEarth
  if CONFIDENCE_THRESHOLD ≤ confidence then some class_id else none

end DetectionUtils

namespace DroneMain

/-- DEFAULT_CONFIDENCE_THRESHOLD = 0.05 (main.py line 67). -/
def DEFAULT_CONFIDENCE_THRESHOLD : ℚ := 5/100

/-- DEFAULT_EARTH_PERSON_THRESHOLD = 0.06 (main.py line 68). -/
def DEFAULT_EARTH_PERSON_THRESHOLD : ℚ := 6/100

/-- DEFAULT_SEA_PERSON_THRESHOLD = 0.03 (main.py line 69). -/
def DEFAULT_SEA_PERSON_THRESHOLD : ℚ := 3/100

/-- DEFAULT_NMS_IOU_THRESHOLD = 0.1 (main.py line 71). -/
def DEFAULT_NMS_IOU_THRESHOLD : ℚ := 1/10

/-- One raw YOLOv8 candidate row [x, y, w, h, conf_class0, conf_class1] of
the transposed (8400, 6) output parsed by parse_onnx_detections. -/
structure RawPred where
  x : ℚ
  y : ℚ
  w : ℚ
  h : ℚ
  conf_class0 : ℚ
  conf_class1 : ℚ
deriving DecidableEq, Repr

/-- A parsed detection as produced by parse_onnx_detections: corner-format
bbox (x1, y1, x2, y2), score, and class index. -/
structure ParsedDet where
  x1 : ℚ
  y1 : ℚ
  x2 : ℚ
  y2 : ℚ
  score : ℚ
  cls : Nat
deriving DecidableEq, Repr

/-- Threshold resolution of parse_onnx_detections (main.py lines 459-460):
the class-specific threshold when provided, else the general conf_threshold. -/
def resolveThreshold (specific : Option ℚ) (conf_threshold : ℚ) : ℚ :=
  specific.getD conf_threshold

/-- Per-candidate filter of parse_onnx_detections (main.py lines 453-489):
class 0 is kept when conf_class0 meets its threshold and strictly beats
conf_class1; otherwise class 1 is kept when conf_class1 meets its threshold
and is at least conf_class0; otherwise the candidate is discarded.  The box
is converted from center to corner format. -/
def parseCandidate (thresh_c0 thresh_c1 : ℚ) (p : RawPred) : Option ParsedDet :=
  if thresh_c0 ≤ p.conf_class0 ∧ p.conf_class1 < p.conf_class0 then
    some { x1 := p.x - p.w / 2, y1 := p.y - p.h / 2,
           x2 := p.x + p.w / 2, y2 := p.y + p.h / 2,
           score := p.conf_class0, cls := 0 }
  else if thresh_c1 ≤ p.conf_class1 ∧ p.conf_class0 ≤ p.conf_class1 then
    some { x1 := p.x - p.w / 2, y1 := p.y - p.h / 2,
           x2 := p.x + p.w / 2, y2 := p.y + p.h / 2,
           score := p.conf_class1, cls := 1 }
  else none

/-- The YOLOv8 branch of parse_onnx_detections (main.py lines 445-491)
restricted to the dets list it builds before NMS: every row is passed
through the per-candidate filter with the resolved per-class thresholds.
The orig_size rescale is the identity here (orig_size None) and the legacy
fallback parser is skipped whenever this branch produced any detection. -/
def parse_onnx_dets_preNMS (earth_threshold sea_threshold : Option ℚ)
    (conf_threshold : ℚ) (preds : List RawPred) : List ParsedDet :=
  preds.filterMap
    (parseCandidate (resolveThreshold earth_threshold conf_threshold)
      (resolveThreshold sea_threshold conf_threshold))

/-- Outcome of one call of restart_webrtc: either the restart proceeds
immediately, or it is deferred through the 30 second cool-down sleep before
proceeding. -/
inductive RestartOutcome
  | immediate
  | deferredCooldown
deriving DecidableEq, Repr

/-- The two module globals that restart_webrtc reads and writes:
webrtc_restart_count and last_restart_time (main.py lines 100-101). -/
structure RestartState where
  webrtc_restart_count : Nat
  last_restart_time : ℤ
deriving DecidableEq, Repr

/-- The rate-limiting head of restart_webrtc (main.py lines 357-394): if the
current request is within 10 seconds of the last restart the counter is
incremented, and once it exceeds 3 the call sleeps 30 seconds and resets the
counter to 0 before proceeding (deferred); otherwise the restart proceeds
immediately.  A request outside the window resets the counter to 0.  In all
branches last_restart_time is then set to the time the request arrived. -/
def restart_webrtc (s : RestartState) (now : ℤ) : RestartOutcome × RestartState :=
  if now - s.last_restart_time < 10 then
    let c := s.webrtc_restart_count + 1
    if 3 < c then
      (RestartOutcome.deferredCooldown,
        { webrtc_restart_count := 0, last_restart_time := now })
    else
      (RestartOutcome.immediate,
        { webrtc_restart_count := c, last_restart_time := now })
  else
    (RestartOutcome.immediate,
      { webrtc_restart_count := 0, last_restart_time := now })

/-- A sequence of restart requests at the given times, starting from a state
whose window was opened by a restart at time t0 with the counter at 0;
returns the outcomes in order together with the final state. -/
def restartRun (t0 : ℤ) (ts : List ℤ) : List RestartOutcome × RestartState :=
  ts.foldl
    (fun acc t =>
      let r := restart_webrtc acc.2 t
      (acc.1 ++ [r.1], r.2))
    ([], { webrtc_restart_count := 0, last_restart_time := t0 })

/-- The signaling state touched by webrtc_answer and webrtc_ice_candidate:
whether the peer connection has a remote description, the
pending_remote_ice buffer (main.py line 96), and the candidates applied to
the peer connection so far, in application order. -/
structure SignalingState where
  remoteDescriptionSet : Bool
  pending_remote_ice : List Nat
  appliedCandidates : List Nat
deriving DecidableEq, Repr

/-- Initial signaling state: no remote description, empty buffer, nothing
applied. -/
def initSignaling : SignalingState :=
  { remoteDescriptionSet := false, pending_remote_ice := [], appliedCandidates := [] }

/-- webrtc_ice_candidate (main.py lines 876-966): when the peer connection
has no remote description the candidate is appended to pending_remote_ice
and nothing is applied; otherwise it is parsed and applied immediately. -/
def webrtc_ice_candidate (s : SignalingState) (cand : Nat) : SignalingState :=
  if s.remoteDescriptionSet then
    { s with appliedCandidates := s.appliedCandidates ++ [cand] }
  else
    { s with pending_remote_ice := s.pending_remote_ice ++ [cand] }

/-- webrtc_answer (main.py lines 795-873): the remote description is set,
then every buffered candidate in pending_remote_ice is applied by iterating
the buffer in list (receipt) order, and the buffer is cleared. -/
def webrtc_answer (s : SignalingState) : SignalingState :=
  { remoteDescriptionSet := true,
    appliedCandidates := s.appliedCandidates ++ s.pending_remote_ice,
    pending_remote_ice := [] }

/-- Delivery of a whole sequence of remote ICE candidates, in order. -/
def receiveCandidates (s : SignalingState) (cands : List Nat) : SignalingState :=
  cands.foldl webrtc_ice_candidate s

/-- aiortc RTCPeerConnection connectionState values. -/
inductive ConnState
  | newConn
  | connecting
  | connected
  | disconnected
  | failed
  | closed
deriving DecidableEq, Repr

/-- The module globals of main.py observable in the stop/restart flow: the
user_stopped flag (line 97), the peer connection abstracted to its
connectionState, whether the video track and keepalive are active, and two
counters of observable signaling activity — restart attempts entered and
webrtc_offer messages emitted. -/
structure DroneState where
  user_stopped : Bool
  peer_connection : Option ConnState
  video_track_active : Bool
  keepalive_active : Bool
  restart_attempts : Nat
  offers_sent : Nat
deriving DecidableEq, Repr

/-- The observable effect of entering restart_webrtc (main.py lines
357-394): a restart attempt is recorded and (after the rate-limit head,
modelled separately by RestartState) a fresh offer is created and a
webrtc_offer message is emitted.  restart_webrtc contains no user_stopped
check. -/
def restartEffect (s : DroneState) : DroneState :=
  { s with
    restart_attempts := s.restart_attempts + 1,
    offers_sent := s.offers_sent + 1 }

/-- on_connectionstatechange (main.py lines 128-137): the handler registered
on the peer connection reads the connection state and, when it is failed or
closed, sleeps one second and calls restart_webrtc.  The branch consults
only the state — the user_stopped flag is never read on this path. -/
def on_connectionstatechange (st : ConnState) (s : DroneState) : DroneState :=
  if st = ConnState.failed ∨ st = ConnState.closed then restartEffect s else s

/-- stop_webrtc (main.py lines 760-792): for a matching device_id it sets
user_stopped, stops the keepalive, stops and clears the video track, closes
the peer connection and clears the global.  Closing an open aiortc peer
connection drives its connectionState to closed and fires the registered
connectionstatechange handler, modelled here as running
on_connectionstatechange with the observed closed state after the handler
body finishes. -/
def stop_webrtc (requested_matches : Bool) (s : DroneState) : DroneState :=
  if !requested_matches then s
  else
    let s1 := { s with
      user_stopped := true, keepalive_active := false, video_track_active := false }
    match s1.peer_connection with
    | none => s1
    | some _ =>
        on_connectionstatechange ConnState.closed { s1 with peer_connection := none }

/-- The health_check loop body (main.py lines 1074-1095): when user_stopped
is set it skips entirely; otherwise it calls restart_webrtc when the peer
connection is in an unhealthy state or the video track is inactive. -/
def health_check_step (s : DroneState) : DroneState :=
  if s.user_stopped then s
  else
    match s.peer_connection with
    | some st =>
        if st ≠ ConnState.connected ∧ st ≠ ConnState.connecting then restartEffect s
        else if s.video_track_active = false then restartEffect s
        else s
    | none =>
        if s.video_track_active = false then s else s

/-- Which camera backend the CameraManager constructor selected
(camera_utils.py lines 34-73): Picamera2 when its import succeeds, else the
OpenCV device-index interface. -/
inductive Backend
  | picamera2
  | opencv
deriving DecidableEq, Repr

/-- The environment a camera setup attempt runs in: whether the Picamera2
module loads, whether the chosen backend opens, and whether a first
frame was captured within the 0.1 second grace wait of setup_camera. -/
structure CameraEnv where
  picamera2Imports : Bool
  backendOpens : Bool
  firstFrameReady : Bool
deriving DecidableEq, Repr

/-- The CameraManager returned by setup_camera, abstracted to the selected
backend and whether get_frame had a frame at the end of the grace wait. -/
structure CameraManager where
  backend : Backend
  hasFrame : Bool
deriving DecidableEq, Repr

/-- setup_camera (camera_utils.py lines 183-196): constructs a CameraManager
(the constructor catches every backend error and falls back, so construction
never fails), starts it, waits 0.1 seconds, and then returns the manager in
both branches — with a frame it logs success, without one it logs a warning
— so the function never returns None. -/
def setup_camera (env : CameraEnv) : Option CameraManager :=
  let cam : CameraManager :=
    { backend := if env.picamera2Imports then Backend.picamera2 else Backend.opencv,
      hasFrame := env.backendOpens ∧ env.firstFrameReady }
  if cam.hasFrame then some cam else some cam

/-- Outcome of the startup phase of main (main.py lines 1181-1221): either
main returns before connecting (so no register_video_device and no
webrtc_offer is ever emitted), or it reaches the server-connection phase,
whose connect handler registers the device and emits an offer. -/
inductive StartupOutcome
  | exitedNoCamera
  | proceededToConnect
deriving DecidableEq, Repr

/-- The camera retry loop of main (main.py lines 1182-1196): up to
max_retries attempts, stopping at the first attempt that yields a camera. -/
def cameraSetupWithRetries (attempt : Nat → Option CameraManager)
    (max_retries : Nat) : Option CameraManager :=
  (List.range max_retries).foldl
    (fun acc k =>
      match acc with
      | some c => some c
      | none => attempt k)
    none

/-- main startup (main.py lines 1181-1221): three camera attempts; if none
yields a camera, main logs and returns before the signaling connection is
ever opened; otherwise it proceeds to connect to the server. -/
def mainStartup (attempt : Nat → Option CameraManager) : StartupOutcome :=
  match cameraSetupWithRetries attempt 3 with
  | none => StartupOutcome.exitedNoCamera
  | some _ => StartupOutcome.proceededToConnect

/-- The shared detection cache of the video track driven by main.py
(cached_detections guarded by detection_lock, read at main.py lines
607-613): the single slot the detection worker swaps its latest
DetectionSet into. -/
structure VideoTrackCache where
  cached_detections : List ParsedDet
deriving DecidableEq, Repr

/-- Modelled from the spec: the overlay step of the FrameProducer.  The
detection-worker variant of video_stream.py that main.py drives (its
detection_thread, detection_lock and cached_detections attributes) is not
in the tree; spec sections 4.3 and 4.7 state that the producer always
overlays the most recently cached DetectionSet, the same slot the publisher
reads.  drawnDetections is the DetectionSet drawn on the outgoing frame. -/
def drawnDetections (track : VideoTrackCache) : List ParsedDet :=
  track.cached_detections

/-- One detection_result payload as assembled by detection_publisher_loop. -/
structure DetectionPayload where
  earth_person_count : Nat
  sea_person_count : Nat
  person_count : Nat
  detections : List ParsedDet
deriving DecidableEq, Repr

/-- One publish instant of detection_publisher_loop (main.py lines 591-651):
copy cached_detections under the lock, count entries of class 0 and class 1,
report person_count as their sum, and attach the raw list capped at 20. -/
def publishPayload (track : VideoTrackCache) : DetectionPayload :=
  let detections := track.cached_detections
  let earth_person_count := (detections.filter (fun d => d.cls = 0)).length
  let sea_person_count := (detections.filter (fun d => d.cls = 1)).length
  { earth_person_count := earth_person_count,
    sea_person_count := sea_person_count,
    person_count := earth_person_count + sea_person_count,
    detections := detections.take 20 }

/-- Modelled from the spec: capacity of the DetectionWorker input queue
(spec section 4.2); the detection-worker variant of video_stream.py that
main.py references is not in the tree. -/
def DETECTION_QUEUE_CAPACITY : Nat := 2

/-- Modelled from the spec: enqueue into the DetectionWorker input queue
(spec section 4.2) — a full queue causes the newest enqueue (the incoming
frame) to be dropped rather than blocking the producer; the call is total
and returns at once in both cases. -/
def enqueueDetectionFrame (q : List Nat) (f : Nat) : List Nat :=
  if DETECTION_QUEUE_CAPACITY ≤ q.length then q else q ++ [f]

/-- Modelled from the spec: the DetectionWorker pulls the oldest pending
frame from the head of its input queue (spec section 4.2). -/
def dequeueDetectionFrame (q : List Nat) : Option Nat × List Nat :=
  match q with
  | [] => (none, [])
  | f :: rest => (some f, rest)

/-- An operation on the detection input queue: the producer enqueues a
frame, or the worker dequeues one. -/
inductive QueueOp
  | enqueue (f : Nat)
  | dequeue
deriving DecidableEq, Repr

/-- The queue contents after running a sequence of operations against an
initially empty detection input queue. -/
def applyQueueOps (ops : List QueueOp) : List Nat :=
  ops.foldl
    (fun q op =>
      match op with
      | QueueOp.enqueue f => enqueueDetectionFrame q f
      | QueueOp.dequeue => (dequeueDetectionFrame q).2)
    []

/-- A raw candidate whose earth_person score is 0.04 and sea_person score 0:
0.04 is below the earth threshold 0.06, so it is discarded. -/
def earthScore4Cand : RawPred :=
  { x := 10, y := 10, w := 4, h := 4, conf_class0 := 4/100, conf_class1 := 0 }

/-- A raw candidate whose sea_person score is 0.04 and earth_person score 0:
0.04 meets the sea threshold 0.03, so it is kept — the same score that the
earth class rejects, which no single global cutoff could reproduce. -/
def seaScore4Cand : RawPred :=
  { x := 20, y := 20, w := 4, h := 4, conf_class0 := 0, conf_class1 := 4/100 }

/-- The parsed detection produced from seaScore4Cand. -/
def seaKeptDet : ParsedDet :=
  { x1 := 18, y1 := 18, x2 := 22, y2 := 22, score := 4/100, cls := 1 }

/-- A live session about to receive an explicit stop: an open connected
peer connection, active track and keepalive, no prior restart or offer. -/
def liveSessionState : DroneState :=
  { user_stopped := false, peer_connection := some ConnState.connected,
    video_track_active := true, keepalive_active := true,
    restart_attempts := 0, offers_sent := 0 }

/-- The environment in which no camera backend can be opened: the
Picamera2 module is unavailable, the OpenCV device does not open, and no
frame ever arrives. -/
def noCameraEnv : CameraEnv :=
  { picamera2Imports := false, backendOpens := false, firstFrameReady := false }

end DroneMain

namespace VideoStream

/-- A single shared box: every pair drawn from it has IoU 1, far above the
0.45 threshold of detect_objects. -/
def overlapBox : YoloBox := { cx := 100, cy := 100, w := 50, h := 50 }

/-- Ten same-class detections on the one shared box with the score list of
the spec scenario (0.9, 0.85, 0.4, then descending), the highest score
deliberately not first so the sort step matters. -/
def tenSameClass : List Detection :=
  [ { box := overlapBox, cls := 0, confidence := 85/100 },
    { box := overlapBox, cls := 0, confidence := 9/10 },
    { box := overlapBox, cls := 0, confidence := 4/10 },
    { box := overlapBox, cls := 0, confidence := 35/100 },
    { box := overlapBox, cls := 0, confidence := 3/10 },
    { box := overlapBox, cls := 0, confidence := 25/100 },
    { box := overlapBox, cls := 0, confidence := 2/10 },
    { box := overlapBox, cls := 0, confidence := 15/100 },
    { box := overlapBox, cls := 0, confidence := 1/10 },
    { box := overlapBox, cls := 0, confidence := 5/100 } ]

end VideoStream


/-! Helper lemmas. -/

theorem add_frame_length_le (buf : List Nat) (f : Nat) (h : buf.length ≤ 3) :
    (VideoStream.add_frame buf f).length ≤ 3 := by
  simp only [VideoStream.add_frame, VideoStream.FRAME_BUFFER_MAX_SIZE]
  split
  · simp only [List.length_drop, List.length_append, List.length_cons, List.length_nil]
    omega
  · next hcond =>
      simp only [List.length_append, List.length_cons, List.length_nil] at hcond ⊢
      omega

theorem fillFrameBuffer_length_le (fs : List Nat) :
    (VideoStream.fillFrameBuffer fs).length ≤ 3 := by
  have key : ∀ (l : List Nat) (q : List Nat), q.length ≤ 3 →
      (l.foldl VideoStream.add_frame q).length ≤ 3 := by
    intro l
    induction l with
    | nil => intro q hq; simpa using hq
    | cons x xs ih =>
        intro q hq
        exact ih _ (add_frame_length_le q x hq)
  exact key fs [] (by simp)

theorem add_frame_getLast (buf : List Nat) (f : Nat) :
    VideoStream.get_latest_frame (VideoStream.add_frame buf f) = some f := by
  simp only [VideoStream.get_latest_frame, VideoStream.add_frame,
    VideoStream.FRAME_BUFFER_MAX_SIZE]
  split
  · next hcond =>
      simp only [List.length_append, List.length_cons, List.length_nil] at hcond
      have hb : 1 ≤ buf.length := by omega
      rw [List.drop_append_of_le_length hb, List.getLast?_concat]
  · exact List.getLast?_concat _

theorem add_frame_ne_nil (buf : List Nat) (f : Nat) :
    VideoStream.add_frame buf f ≠ [] := by
  intro hnil
  have h := add_frame_getLast buf f
  rw [hnil] at h
  simp [VideoStream.get_latest_frame] at h

theorem fillFrameBuffer_eq_nil_iff (fs : List Nat) :
    VideoStream.fillFrameBuffer fs = [] ↔ fs = [] := by
  constructor
  · intro h
    cases fs with
    | nil => rfl
    | cons f rest =>
        exfalso
        have key : ∀ (l : List Nat) (q : List Nat), q ≠ [] →
            l.foldl VideoStream.add_frame q ≠ [] := by
          intro l
          induction l with
          | nil => intro q hq; simpa using hq
          | cons x xs ih => intro q _; exact ih _ (add_frame_ne_nil q x)
        have hne : VideoStream.fillFrameBuffer (f :: rest) ≠ [] := by
          unfold VideoStream.fillFrameBuffer
          rw [List.foldl_cons]
          exact key rest _ (add_frame_ne_nil [] f)
        exact hne h
  · intro h; subst h; rfl

theorem enqueueDetectionFrame_length_le (q : List Nat) (f : Nat) (hq : q.length ≤ 2) :
    (DroneMain.enqueueDetectionFrame q f).length ≤ 2 := by
  unfold DroneMain.enqueueDetectionFrame
  by_cases h : DroneMain.DETECTION_QUEUE_CAPACITY ≤ q.length
  · rw [if_pos h]; exact hq
  · rw [if_neg h]
    simp only [DroneMain.DETECTION_QUEUE_CAPACITY] at h
    simp only [List.length_append, List.length_cons, List.length_nil]
    omega

theorem dequeueDetectionFrame_length_le (q : List Nat) (hq : q.length ≤ 2) :
    (DroneMain.dequeueDetectionFrame q).2.length ≤ 2 := by
  cases q with
  | nil => simp [DroneMain.dequeueDetectionFrame]
  | cons x xs =>
      simp only [DroneMain.dequeueDetectionFrame]
      simp only [List.length_cons] at hq
      omega

theorem receiveCandidates_not_set (cands : List Nat) :
    ∀ s : DroneMain.SignalingState, s.remoteDescriptionSet = false →
      DroneMain.receiveCandidates s cands =
        { s with pending_remote_ice := s.pending_remote_ice ++ cands } := by
  induction cands with
  | nil => intro s _; simp [DroneMain.receiveCandidates]
  | cons c cs ih =>
      intro s hs
      unfold DroneMain.receiveCandidates at ih ⊢
      rw [List.foldl_cons]
      have hstep : DroneMain.webrtc_ice_candidate s c =
          { s with pending_remote_ice := s.pending_remote_ice ++ [c] } := by
        unfold DroneMain.webrtc_ice_candidate
        rw [hs]
        simp
      rw [hstep,
        ih { s with pending_remote_ice := s.pending_remote_ice ++ [c] } (by simpa using hs)]
      simp

theorem nmsLoop_subset (t : ℚ) (l : List VideoStream.Detection) :
    ∀ x ∈ VideoStream.nmsLoop t l, x ∈ l := by
  induction l using VideoStream.nmsLoop.induct t with
  | case1 => simp [VideoStream.nmsLoop]
  | case2 d rest ih =>
      intro x hx
      rw [VideoStream.nmsLoop] at hx
      rcases List.mem_cons.mp hx with h | h
      · exact h ▸ List.mem_cons_self _ _
      · exact List.mem_cons_of_mem d (List.mem_of_mem_filter (ih x h))

theorem nmsLoop_pairwise (t : ℚ) (l : List VideoStream.Detection) :
    (VideoStream.nmsLoop t l).Pairwise
      (fun a b => VideoStream.compute_iou a.box b.box < t) := by
  induction l using VideoStream.nmsLoop.induct t with
  | case1 => simp [VideoStream.nmsLoop]
  | case2 d rest ih =>
      rw [VideoStream.nmsLoop]
      refine List.Pairwise.cons ?_ ih
      intro b hb
      have hmem := nmsLoop_subset t _ b hb
      have := List.of_mem_filter hmem
      exact of_decide_eq_true this

theorem length_filter_cls_split (l : List DroneMain.ParsedDet) :
    (l.filter (fun d => d.cls ≤ 1)).length =
      (l.filter (fun d => d.cls = 0)).length +
        (l.filter (fun d => d.cls = 1)).length := by
  induction l with
  | nil => simp
  | cons d rest ih =>
      simp only [List.filter_cons]
      by_cases h0 : d.cls = 0
      · simp only [h0]
        norm_num
        omega
      · by_cases h1 : d.cls = 1
        · simp only [h1]
          norm_num
          omega
        · have hgt : ¬ d.cls ≤ 1 := by omega
          simp only [h0, h1, hgt]
          norm_num
          exact ih

/-! Claim theorems. -/

/-- C1: the claim says an explicit stop_webrtc never triggers a restart
attempt even though closing leaves the connection in a Closed state.
Evaluating the embedded handlers at the failing input — a stop_webrtc for
the own device while a connected session is open — shows the opposite:
closing the peer connection fires on_connectionstatechange with the closed
state, whose guard consults only the state and never user_stopped, so
restart_webrtc is entered and a fresh webrtc_offer is emitted. -/
theorem stop_webrtc_fires_restart :
    (DroneMain.stop_webrtc true DroneMain.liveSessionState).user_stopped = true ∧
    (DroneMain.stop_webrtc true DroneMain.liveSessionState).peer_connection = none ∧
    (DroneMain.stop_webrtc true DroneMain.liveSessionState).restart_attempts = 1 ∧
    (DroneMain.stop_webrtc true DroneMain.liveSessionState).offers_sent = 1 := by
  decide

/-- C2: starting from a window opened by a restart at t0 with the counter at
0, four failure-driven restart requests each within 10 seconds of the
previous restart give: requests 1 to 3 restart immediately, request 4 is
deferred to the 30 second cool-down path, and after the cool-down the
restart counter is 0. -/
theorem restart_budget_fourth_deferred (t0 t1 t2 t3 t4 : ℤ)
    (h1 : t1 - t0 < 10) (h2 : t2 - t1 < 10) (h3 : t3 - t2 < 10) (h4 : t4 - t3 < 10) :
    (DroneMain.restartRun t0 [t1, t2, t3, t4]).1 =
      [DroneMain.RestartOutcome.immediate, DroneMain.RestartOutcome.immediate,
       DroneMain.RestartOutcome.immediate, DroneMain.RestartOutcome.deferredCooldown] ∧
    (DroneMain.restartRun t0 [t1, t2, t3, t4]).2.webrtc_restart_count = 0 := by
  simp [DroneMain.restartRun, DroneMain.restart_webrtc, h1, h2, h3, h4]

theorem restart_budget_fourth_deferred_witness :
    ((1 : ℤ) - 0 < 10 ∧ (2 : ℤ) - 1 < 10 ∧ (3 : ℤ) - 2 < 10 ∧ (4 : ℤ) - 3 < 10) ∧
    (DroneMain.restartRun 0 [1, 2, 3, 4]).1 =
      [DroneMain.RestartOutcome.immediate, DroneMain.RestartOutcome.immediate,
       DroneMain.RestartOutcome.immediate, DroneMain.RestartOutcome.deferredCooldown] ∧
    (DroneMain.restartRun 0 [1, 2, 3, 4]).2.webrtc_restart_count = 0 :=
  ⟨⟨by norm_num, by norm_num, by norm_num, by norm_num⟩,
    restart_budget_fourth_deferred 0 1 2 3 4 (by norm_num) (by norm_num)
      (by norm_num) (by norm_num)⟩

/-- C3: candidates received while no remote description is set are all
buffered in receipt order and none is applied; when the answer arrives the
whole buffer is applied in exactly that FIFO order and emptied; and a
candidate arriving after the answer is applied immediately. -/
theorem ice_candidates_fifo (cands : List Nat) (c : Nat) :
    (DroneMain.receiveCandidates DroneMain.initSignaling cands).pending_remote_ice = cands ∧
    (DroneMain.receiveCandidates DroneMain.initSignaling cands).appliedCandidates = [] ∧
    (DroneMain.webrtc_answer
      (DroneMain.receiveCandidates DroneMain.initSignaling cands)).appliedCandidates = cands ∧
    (DroneMain.webrtc_answer
      (DroneMain.receiveCandidates DroneMain.initSignaling cands)).pending_remote_ice = [] ∧
    (DroneMain.webrtc_ice_candidate
      (DroneMain.webrtc_answer (DroneMain.receiveCandidates DroneMain.initSignaling cands))
      c).appliedCandidates = cands ++ [c] := by
  have h := receiveCandidates_not_set cands DroneMain.initSignaling rfl
  rw [h]
  simp [DroneMain.initSignaling, DroneMain.webrtc_answer, DroneMain.webrtc_ice_candidate]

/-- C4: the detection input queue never holds more than 2 frames under any
sequence of enqueue and dequeue operations, and an enqueue into a full
queue leaves the queue unchanged — the newest item is dropped and the
producer is never blocked (enqueue is total). -/
theorem detection_queue_capacity_drop_newest :
    (∀ ops : List DroneMain.QueueOp,
        (DroneMain.applyQueueOps ops).length ≤ DroneMain.DETECTION_QUEUE_CAPACITY) ∧
    (∀ (q : List Nat) (f : Nat), q.length = DroneMain.DETECTION_QUEUE_CAPACITY →
        DroneMain.enqueueDetectionFrame q f = q) := by
  constructor
  · intro ops
    have key : ∀ (l : List DroneMain.QueueOp) (q : List Nat), q.length ≤ 2 →
        (l.foldl
          (fun q op =>
            match op with
            | DroneMain.QueueOp.enqueue f => DroneMain.enqueueDetectionFrame q f
            | DroneMain.QueueOp.dequeue => (DroneMain.dequeueDetectionFrame q).2)
          q).length ≤ 2 := by
      intro l
      induction l with
      | nil => intro q hq; simpa using hq
      | cons op rest ih =>
          intro q hq
          rw [List.foldl_cons]
          cases op with
          | enqueue f => exact ih _ (enqueueDetectionFrame_length_le q f hq)
          | dequeue => exact ih _ (dequeueDetectionFrame_length_le q hq)
    exact key ops [] (by simp)
  · intro q f hq
    unfold DroneMain.enqueueDetectionFrame
    rw [if_pos (le_of_eq hq.symm)]

theorem detection_queue_capacity_drop_newest_witness :
    ([5, 6] : List Nat).length = DroneMain.DETECTION_QUEUE_CAPACITY ∧
    DroneMain.enqueueDetectionFrame [5, 6] 7 = [5, 6] :=
  ⟨by decide, detection_queue_capacity_drop_newest.2 [5, 6] 7 (by decide)⟩

/-- C5: with the two class thresholds supplied, every detection the parser
hands to NMS meets the threshold of its own class (candidates below their
class threshold are discarded before NMS), and the thresholds act
independently: with the default earth threshold 0.06 and sea threshold
0.03, a score of 0.04 is kept as sea_person yet discarded as earth_person,
which no single global cutoff could reproduce. -/
theorem parse_per_class_thresholds :
    (∀ (e s ct : ℚ) (preds : List DroneMain.RawPred) (d : DroneMain.ParsedDet),
        d ∈ DroneMain.parse_onnx_dets_preNMS (some e) (some s) ct preds →
        (d.cls = 0 ∧ e ≤ d.score) ∨ (d.cls = 1 ∧ s ≤ d.score)) ∧
    DroneMain.parse_onnx_dets_preNMS (some DroneMain.DEFAULT_EARTH_PERSON_THRESHOLD)
        (some DroneMain.DEFAULT_SEA_PERSON_THRESHOLD) DroneMain.DEFAULT_CONFIDENCE_THRESHOLD
        [DroneMain.earthScore4Cand, DroneMain.seaScore4Cand] = [DroneMain.seaKeptDet] := by
  constructor
  · intro e s ct preds d hd
    rw [DroneMain.parse_onnx_dets_preNMS] at hd
    rcases List.mem_filterMap.mp hd with ⟨p, _, hpc⟩
    rw [DroneMain.parseCandidate] at hpc
    split at hpc
    · next hcond =>
        injection hpc with h
        subst h
        left
        exact ⟨rfl, by simpa [DroneMain.resolveThreshold] using hcond.1⟩
    · split at hpc
      · next hcond =>
          injection hpc with h
          subst h
          right
          exact ⟨rfl, by simpa [DroneMain.resolveThreshold] using hcond.1⟩
      · exact Option.noConfusion hpc
  · norm_num [DroneMain.parse_onnx_dets_preNMS, DroneMain.parseCandidate,
      DroneMain.resolveThreshold, DroneMain.earthScore4Cand, DroneMain.seaScore4Cand,
      DroneMain.seaKeptDet, DroneMain.DEFAULT_EARTH_PERSON_THRESHOLD,
      DroneMain.DEFAULT_SEA_PERSON_THRESHOLD, DroneMain.DEFAULT_CONFIDENCE_THRESHOLD,
      List.filterMap_cons]

theorem parse_per_class_thresholds_witness :
    DroneMain.seaKeptDet ∈
      DroneMain.parse_onnx_dets_preNMS (some (6/100)) (some (3/100)) (5/100)
        [DroneMain.seaScore4Cand] ∧
    ((DroneMain.seaKeptDet.cls = 0 ∧ (6/100 : ℚ) ≤ DroneMain.seaKeptDet.score) ∨
     (DroneMain.seaKeptDet.cls = 1 ∧ (3/100 : ℚ) ≤ DroneMain.seaKeptDet.score)) := by
  have hmem : DroneMain.seaKeptDet ∈
      DroneMain.parse_onnx_dets_preNMS (some (6/100)) (some (3/100)) (5/100)
        [DroneMain.seaScore4Cand] := by
    norm_num [DroneMain.parse_onnx_dets_preNMS, DroneMain.parseCandidate,
      DroneMain.resolveThreshold, DroneMain.seaScore4Cand, DroneMain.seaKeptDet,
      List.filterMap_cons]
  exact ⟨hmem,
    parse_per_class_thresholds.1 (6/100) (3/100) (5/100)
      [DroneMain.seaScore4Cand] DroneMain.seaKeptDet hmem⟩

/-- C6: for every input list and threshold, no two boxes retained by
non_max_suppression have IoU at or above the threshold (pairwise IoU is
strictly below it, so in particular never above it); and on the concrete
scenario of 10 same-class detections on one shared box — every pair
overlapping with IoU 1, above the 0.45 threshold — exactly one box, the
highest scoring, is retained. -/
theorem nms_pairwise_below_threshold :
    (∀ (dets : List VideoStream.Detection) (t : ℚ),
        (VideoStream.non_max_suppression dets t).Pairwise
          (fun a b => VideoStream.compute_iou a.box b.box < t)) ∧
    VideoStream.non_max_suppression VideoStream.tenSameClass (45/100) =
      [{ box := VideoStream.overlapBox, cls := 0, confidence := 9/10 }] ∧
    (∀ a ∈ VideoStream.tenSameClass, ∀ b ∈ VideoStream.tenSameClass,
        45/100 < VideoStream.compute_iou a.box b.box) := by
  refine ⟨fun dets t => nmsLoop_pairwise t _, ?_, ?_⟩
  · norm_num [VideoStream.non_max_suppression, VideoStream.sortByConfDesc,
      VideoStream.tenSameClass, List.insertionSort, List.orderedInsert,
      VideoStream.nmsLoop, VideoStream.compute_iou, VideoStream.overlapBox, List.filter]
  · have h : VideoStream.compute_iou VideoStream.overlapBox VideoStream.overlapBox = 1 := by
      norm_num [VideoStream.compute_iou, VideoStream.overlapBox]
    intro a ha b hb
    fin_cases ha <;> fin_cases hb <;> simp [VideoStream.tenSameClass, h] <;> norm_num

/-- C7: at any publish instant the counts emitted by the detection
publisher equal the per-class counts of exactly the DetectionSet the frame
producer is drawing (both read the same cached slot), and person_count is
the number of drawn detections whose class is 0 or 1. -/
theorem publisher_counts_match_overlay (track : DroneMain.VideoTrackCache) :
    (DroneMain.publishPayload track).earth_person_count =
      ((DroneMain.drawnDetections track).filter (fun d => d.cls = 0)).length ∧
    (DroneMain.publishPayload track).sea_person_count =
      ((DroneMain.drawnDetections track).filter (fun d => d.cls = 1)).length ∧
    (DroneMain.publishPayload track).person_count =
      ((DroneMain.drawnDetections track).filter (fun d => d.cls ≤ 1)).length := by
  refine ⟨rfl, rfl, ?_⟩
  simp only [DroneMain.publishPayload, DroneMain.drawnDetections]
  exact (length_filter_cls_split track.cached_detections).symm

/-- C8 counterexample: in the environment where no camera backend can be
opened and no frame ever arrives, main does not return without connecting —
setup_camera still hands back a camera manager, so startup proceeds to the
signaling phase, contradicting the claim that no signaling activity occurs. -/
theorem camera_unavailable_still_connects :
    DroneMain.mainStartup (fun _ => DroneMain.setup_camera DroneMain.noCameraEnv) =
      DroneMain.StartupOutcome.proceededToConnect ∧
    DroneMain.mainStartup (fun _ => DroneMain.setup_camera DroneMain.noCameraEnv) ≠
      DroneMain.StartupOutcome.exitedNoCamera := by
  constructor <;> decide

/-- C8 amended: setup_camera never fails — it returns a camera manager in
every environment, even when no backend opens — so main always proceeds to
the signaling phase after the first attempt; the early return of main with
no signaling activity would occur only if every one of the 3 attempts
yielded nothing, which setup_camera never does. -/
theorem camera_setup_never_fails :
    (∀ env : DroneMain.CameraEnv, (DroneMain.setup_camera env).isSome = true) ∧
    (∀ env : DroneMain.CameraEnv,
        DroneMain.mainStartup (fun _ => DroneMain.setup_camera env) =
          DroneMain.StartupOutcome.proceededToConnect) ∧
    DroneMain.mainStartup (fun _ => none) = DroneMain.StartupOutcome.exitedNoCamera := by
  refine ⟨?_, ?_, by decide⟩
  · rintro ⟨p, b, f⟩
    cases p <;> cases b <;> cases f <;> decide
  · rintro ⟨p, b, f⟩
    cases p <;> cases b <;> cases f <;> decide

/-- C9: in the streaming path, class assignment is order-biased, not
highest-score: whenever the earth score clears the 0.5 threshold the
candidate is classified earth_person even when the sea score is strictly
higher, while the snapshot path classifies the same scores as sea_person by
argmax. -/
theorem stream_class_order_biased (e s : ℚ)
    (he : VideoStream.streamConfThreshold < e) (hs : e < s) :
    VideoStream.streamClassify e s = some 0 ∧
    DetectionUtils.snapshotClassify e s = some 1 := by
  constructor
  · simp [VideoStream.streamClassify, he]
  · have h2 : DetectionUtils.CONFIDENCE_THRESHOLD ≤ s := le_of_lt (lt_trans he hs)
    simp [DetectionUtils.snapshotClassify, hs, h2]

theorem stream_class_order_biased_witness :
    (VideoStream.streamConfThreshold < (3/5 : ℚ) ∧ (3/5 : ℚ) < 9/10) ∧
    VideoStream.streamClassify (3/5) (9/10) = some 0 ∧
    DetectionUtils.snapshotClassify (3/5) (9/10) = some 1 :=
  ⟨⟨by norm_num [VideoStream.streamConfThreshold], by norm_num⟩,
    stream_class_order_biased (3/5) (9/10)
      (by norm_num [VideoStream.streamConfThreshold]) (by norm_num)⟩

/-- C10: the capture frame buffer never holds more than 3 frames; adding to
a full buffer evicts the oldest frame and keeps the newest; get_latest_frame
returns the frame just added (and, being a pure read, removes nothing); and
it returns none exactly when no frame was ever added. -/
theorem frame_buffer_bound_and_latest :
    (∀ fs : List Nat,
        (VideoStream.fillFrameBuffer fs).length ≤ VideoStream.FRAME_BUFFER_MAX_SIZE) ∧
    (∀ (buf : List Nat) (f : Nat),
        VideoStream.get_latest_frame (VideoStream.add_frame buf f) = some f) ∧
    (∀ (buf : List Nat) (f : Nat), buf.length = VideoStream.FRAME_BUFFER_MAX_SIZE →
        VideoStream.add_frame buf f = buf.drop 1 ++ [f]) ∧
    (∀ fs : List Nat,
        VideoStream.get_latest_frame (VideoStream.fillFrameBuffer fs) = none ↔ fs = []) := by
  refine ⟨fillFrameBuffer_length_le, add_frame_getLast, ?_, ?_⟩
  · intro buf f hlen
    have hlen3 : buf.length = 3 := hlen
    simp only [VideoStream.add_frame, VideoStream.FRAME_BUFFER_MAX_SIZE]
    rw [if_pos (by simp [hlen3])]
    exact List.drop_append_of_le_length (by omega)
  · intro fs
    rw [VideoStream.get_latest_frame, List.getLast?_eq_none_iff]
    exact fillFrameBuffer_eq_nil_iff fs

theorem frame_buffer_bound_and_latest_witness :
    ([1, 2, 3] : List Nat).length = VideoStream.FRAME_BUFFER_MAX_SIZE ∧
    VideoStream.add_frame [1, 2, 3] 4 = [2, 3, 4] :=
  ⟨by decide, by
    have h := frame_buffer_bound_and_latest.2.2.1 [1, 2, 3] 4 (by decide)
    simpa using h⟩

theorem nms_pairwise_below_threshold_witness :
    ({ box := VideoStream.overlapBox, cls := 0, confidence := 85/100 } :
        VideoStream.Detection) ∈ VideoStream.tenSameClass ∧
    (45:ℚ)/100 < VideoStream.compute_iou
      ({ box := VideoStream.overlapBox, cls := 0, confidence := 85/100 } :
        VideoStream.Detection).box
      ({ box := VideoStream.overlapBox, cls := 0, confidence := 85/100 } :
        VideoStream.Detection).box := by
  have hmem : ({ box := VideoStream.overlapBox, cls := 0, confidence := 85/100 } :
      VideoStream.Detection) ∈ VideoStream.tenSameClass := by
    simp [VideoStream.tenSameClass]
  exact ⟨hmem, nms_pairwise_below_threshold.2.2 _ hmem _ hmem⟩
